import Mathlib

/-!
Verification of the US sector-ETF analysis pipeline (`src/main.py`).

The pipeline computes technical indicators per instrument
(`calculate_technical_indicators`), emits rounded indicator rows
(`make_row` inside `get_sector_data`), merges them
(`process_data_for_chart`: sort + dedup, latest snapshot per code,
base-100 normalized pivot, overheated top-3), classifies each snapshot
row (`generate_html_content`), and publishes the result (`main`).

This file shallowly embeds those computations: Python floats become ℚ
(ℝ where a square root is genuinely needed), pandas NaN cells become
`Option`, and the IEEE special-value behaviour the code relies on
(inf/NaN propagation in the RSI formula, NaN division in the pivot
normalization) is made explicit as branches, each documented at its
definition.
-/

namespace SectorAnalysis

/-- Python's `round` applied to an exact value: round half to even
(banker's rounding), as documented for `round`.  Embeds the calls
`round(x, k)` in `make_row` (src/main.py lines 87-94). -/
def rnd (x : ℚ) : ℤ :=
  if x - (⌊x⌋ : ℚ) < 1/2 then ⌊x⌋
  else if 1/2 < x - (⌊x⌋ : ℚ) then ⌊x⌋ + 1
  else if ⌊x⌋ % 2 = 0 then ⌊x⌋ else ⌊x⌋ + 1

/-- `round(x, 1)` on an exact value. -/
def round1 (x : ℚ) : ℚ := (rnd (x * 10) : ℚ) / 10

/-- `round(x, 2)` on an exact value. -/
def round2 (x : ℚ) : ℚ := (rnd (x * 100) : ℚ) / 100

/-- The three panel states of the classification policy. -/
inductive Status where
  | overheated
  | oversold
  | normal
deriving DecidableEq, Repr

/-- The classification in `generate_html_content` (src/main.py lines
211-240): default `通常` (normal); `if rsi >= 70 or bb > 1.0` then
`過熱` (overheated); `elif rsi <= 30 or bb < 0` then `割安` (oversold).
The same overheated condition appears at line 142 in
`process_data_for_chart`. -/
def classify (rsi bb : ℚ) : Status :=
  if rsi ≥ 70 ∨ bb > 1 then .overheated
  else if rsi ≤ 30 ∨ bb < 0 then .oversold
  else .normal

/-- The trailing average gain over a window of daily deltas:
`gain = (delta.where(delta > 0, 0)).rolling(window=14).mean()`
(src/main.py line 42), applied to the 14 deltas `ds` of the window. -/
def avgGain (ds : List ℚ) : ℚ := ((ds.map fun d => max d 0).sum) / ds.length

/-- The trailing average loss over a window of daily deltas:
`loss = (-delta.where(delta < 0, 0)).rolling(window=14).mean()`
(src/main.py line 43). -/
def avgLoss (ds : List ℚ) : ℚ := ((ds.map fun d => max (-d) 0).sum) / ds.length

/-- `rs = gain / loss; rsi = 100 - 100/(1 + rs)` (src/main.py lines
44-45) under the float semantics the code relies on, made explicit:
for `loss = 0` and `gain > 0`, `gain/0 = +inf` so `rsi = 100 - 0 = 100`;
for `loss = 0` and `gain = 0`, `0/0 = NaN`, the row is NaN and is
removed by the `dropna()` on line 79 (hence `none`). -/
def rsiOfAvg (gain loss : ℚ) : Option ℚ :=
  if loss = 0 then
    if gain = 0 then none else some 100
  else some (100 - 100 / (1 + gain / loss))

/-- One emitted indicator row (`make_row`, src/main.py lines 82-95).
Fields not touched by any claim under verification (the three deviation
percentages, the volume ratio, the previous-day change) are omitted. -/
structure Row where
  code : String
  sector : String
  date : ℕ
  close : ℚ
  rsi : ℚ
  bb : ℚ
deriving DecidableEq, Repr

/-- `make_row` (src/main.py lines 82-95): the emitted row rounds the
close and %B to 2 decimals and the RSI to 1 decimal. -/
def makeRow (code sector : String) (date : ℕ) (close rsi bb : ℚ) : Row :=
  { code := code, sector := sector, date := date,
    close := round2 close, rsi := round1 rsi, bb := round2 bb }

/-- A 14-delta window of a strictly rising close series: every delta is
1, so the trailing average loss is 0 and the average gain positive. -/
def exDeltas : List ℚ := List.replicate 14 1

/-- The sort order of `df.sort_values(['日付', 'コード'])` (src/main.py
line 116): lexicographic on (date, instrument code). -/
def keyLe (a b : Row) : Prop :=
  a.date < b.date ∨ (a.date = b.date ∧ a.code ≤ b.code)

instance : DecidableRel keyLe := fun a b =>
  inferInstanceAs (Decidable (a.date < b.date ∨ (a.date = b.date ∧ a.code ≤ b.code)))

/-- Two rows agree on the deduplication key (date, instrument code). -/
def sameKey (a b : Row) : Prop := a.date = b.date ∧ a.code = b.code

instance : ∀ a b : Row, Decidable (sameKey a b) := fun a b =>
  inferInstanceAs (Decidable (a.date = b.date ∧ a.code = b.code))

/-- `df.drop_duplicates(subset=['日付', 'コード'], keep='last')`
(src/main.py line 117): a row is kept iff no row after it shares its
(date, code) key. -/
def dedupKeepLast : List Row → List Row
  | [] => []
  | r :: rs =>
    if ∃ s ∈ rs, sameKey s r then dedupKeepLast rs else r :: dedupKeepLast rs

/-- The Aggregator merge step (src/main.py lines 115-117): sort by
(date, code), then deduplicate by (date, code) keeping the last
occurrence. -/
def mergeStep (rows : List Row) : List Row :=
  dedupKeepLast (List.insertionSort keyLe rows)

/-- The earliest date of the merged date index: the label of
`pivot_df.iloc[0]` (src/main.py line 129), i.e. the minimum date
appearing in any row (the pivot index is sorted ascending). -/
def earliestDate : List Row → ℕ
  | [] => 0
  | r :: rs => (rs.map Row.date).foldl min r.date

/-- One cell of `pivot_df = df.pivot(index='日付', columns='セクター名',
values='現在値')` (src/main.py line 126): the close of the row with the
given date and sector name; `none` is the NaN pandas places where no
such row exists.  The pivot assumes (date, name) determines the row
uniquely (pandas raises otherwise), so the first match is the value. -/
def pivotCell (df : List Row) (d : ℕ) (n : String) : Option ℚ :=
  (df.find? fun r => r.date == d && r.sector == n).map Row.close

/-- The columns of `pivot_df` (and hence of `normalized_df`, which the
division does not drop): the distinct sector names occurring in the
merged dataset. -/
def pivotColumns (df : List Row) : List String := (df.map Row.sector).dedup

/-- One cell of `normalized_df = pivot_df.div(base_prices).mul(100)
.round(2)` (src/main.py lines 129-130): the cell divided by that
column's value at the earliest date, times 100, rounded to 2 decimals.
Any operation touching NaN yields NaN, so a missing cell or a missing
basis gives `none`.  (The Bar invariant close > 0 keeps the division
away from the 0/0 float case, which this ℚ embedding does not model.) -/
def normalizedCell (df : List Row) (d : ℕ) (n : String) : Option ℚ :=
  match pivotCell df (earliestDate df) n, pivotCell df d n with
  | some b, some c => some (round2 (c / b * 100))
  | _, _ => none

/-- A merged dataset in which sector `Disc` has no row at the earliest
date (date 0): rows for `Comm` at dates 0 and 1 and for `Disc` at
date 1 only. -/
def exDf : List Row :=
  [⟨"XLC", "Comm", 0, 10, 50, 1/2⟩,
   ⟨"XLC", "Comm", 1, 11, 50, 1/2⟩,
   ⟨"XLY", "Disc", 1, 5, 50, 1/2⟩]

/-- One entry of the overheated shortlist (src/main.py lines 147-151):
sector name, current normalized index value, RSI. -/
structure OEntry where
  sector : String
  indexVal : ℚ
  rsi : ℚ
deriving DecidableEq, Repr

/-- The candidate test `if rsi >= 70 or bb > 1.0` (src/main.py
line 142), read from the snapshot row's stored (rounded) values. -/
def isOverheatedRow (r : Row) : Bool := decide (r.rsi ≥ 70 ∨ r.bb > 1)

/-- The candidate list built by the loop at src/main.py lines 137-151:
snapshot rows passing the overheated test, in snapshot order, each with
the last value of its normalized column (`normalized_df[sector]
.iloc[-1]`), or 0 when the sector has no normalized column. -/
def overheatedEntries (snapshot : List Row) (lastIndex : String → Option ℚ) :
    List OEntry :=
  (snapshot.filter isOverheatedRow).map fun r =>
    { sector := r.sector, indexVal := (lastIndex r.sector).getD 0, rsi := r.rsi }

/-- The order used by `overheated_sectors.sort(key=lambda x: x['rsi'],
reverse=True)` (src/main.py line 153): RSI descending. -/
def rankDesc (a b : OEntry) : Prop := b.rsi ≤ a.rsi

instance : DecidableRel rankDesc := fun a b =>
  inferInstanceAs (Decidable (b.rsi ≤ a.rsi))

/-- Lines 153-154: Python's `list.sort` is stable, and `reverse=True`
reverses the comparisons while keeping ties in list order; insertion
sort with `rankDesc` realizes exactly that order.  Then `[:3]`. -/
def overheatedTop3 (snapshot : List Row) (lastIndex : String → Option ℚ) :
    List OEntry :=
  (List.insertionSort rankDesc (overheatedEntries snapshot lastIndex)).take 3

/-- The declared instrument universe `SECTOR_ETFS` (src/main.py lines
13-25): the fixed ordered list of the 11 sector ETF codes. -/
def sectorOrder : List String :=
  ["XLC", "XLY", "XLP", "XLE", "XLF", "XLV", "XLI", "XLB", "XLRE", "XLK", "XLU"]

/-- The display-priority key of src/main.py line 122:
`list(SECTOR_ETFS.keys()).index(x) if x in SECTOR_ETFS else 99`. -/
def sortKey (c : String) : ℕ :=
  if c ∈ sectorOrder then sectorOrder.indexOf c else 99

/-- The row with the maximum date among a code's rows
(`df.sort_values('日付').groupby('コード').tail(1)`, src/main.py
line 120); `none` when the code has no rows. -/
def latestFor (df : List Row) (c : String) : Option Row :=
  (df.filter fun r => r.code == c).foldl
    (fun acc r =>
      match acc with
      | none => some r
      | some a => if a.date ≤ r.date then some r else some a)
    none

/-- The snapshot panel order of src/main.py line 123:
`latest_df.sort_values('sort_key')` compares the display-priority
keys.  (The pandas default sort kind is quicksort, which does not
guarantee a stable tie order; this model uses a stable sort as one
admissible realization.) -/
def snapKeyLe (a b : Row) : Prop := sortKey a.code ≤ sortKey b.code

instance : DecidableRel snapKeyLe := fun a b =>
  inferInstanceAs (Decidable (sortKey a.code ≤ sortKey b.code))

/-- The snapshot panel (src/main.py lines 119-123): the maximum-date row
per instrument code, ordered by display-priority key. -/
def snapshotPanel (df : List Row) : List Row :=
  List.insertionSort snapKeyLe ((df.map Row.code).dedup.filterMap (latestFor df))

/-- The maximum date appearing in any row: the label of
`pivot_df.iloc[-1]` / `.iloc[-1]` lookups on the normalized table. -/
def latestDate : List Row → ℕ
  | [] => 0
  | r :: rs => (rs.map Row.date).foldl max r.date

/-- The chart date labels (src/main.py line 159): the sorted distinct
dates of the merged dataset (the pivot index). -/
def pivotDates (df : List Row) : List ℕ :=
  List.insertionSort (· ≤ ·) (df.map Row.date).dedup

/-- `normalized_df[sector].iloc[-1]` guarded by
`if sector in normalized_df.columns` (src/main.py lines 143-145):
the sector's normalized value at the last date of the index, `none`
when the sector has no column. -/
def lastIndexOf (df : List Row) (n : String) : Option ℚ :=
  if n ∈ pivotColumns df then normalizedCell df (latestDate df) n else none

/-- `process_data_for_chart` (src/main.py lines 107-182): empty input
returns `(None, None, None, None)` (lines 109-110); otherwise the
merged dataset feeds the snapshot panel, the chart labels and columns,
and the overheated top-3. -/
def processDataForChart (allRows : List Row) :
    Option (List Row × List ℕ × List String × List OEntry) :=
  if allRows = [] then none
  else
    some (snapshotPanel (mergeStep allRows),
      pivotDates (mergeStep allRows),
      pivotColumns (mergeStep allRows),
      overheatedTop3 (snapshotPanel (mergeStep allRows))
        (lastIndexOf (mergeStep allRows)))

/-- The tail of `main` (src/main.py lines 440-453): when no rows were
retrieved it prints and returns (lines 440-442) — no processing, no
rendering, no publishing; otherwise the processed data is handed to the
out-of-scope renderer and publisher. -/
def mainAfterFetch (allRows : List Row) :
    Option (List Row × List ℕ × List String × List OEntry) :=
  if allRows = [] then none else processDataForChart allRows

/-- Snapshot rows A, B, C with RSI 95, 80, 95, all overheated. -/
def rowA : Row := ⟨"XLC", "A", 0, 10, 95, 1/2⟩

/-- See `rowA`. -/
def rowB : Row := ⟨"XLY", "B", 0, 10, 80, 1/2⟩

/-- See `rowA`. -/
def rowC : Row := ⟨"XLP", "C", 0, 10, 95, 1/2⟩

/-- The rolling mean `df['Close'].rolling(window=20).mean()` (src/main.py
line 48), applied to one full trailing window `l` of closes. -/
noncomputable def winMean (l : List ℝ) : ℝ := l.sum / (l.length : ℝ)

/-- The variance under `df['Close'].rolling(window=20).std()`
(src/main.py line 49): pandas `.std()` defaults to `ddof=1`, the sample
(unbiased) variance with divisor N − 1. -/
noncomputable def sampleVar (l : List ℝ) : ℝ :=
  ((l.map fun x => (x - winMean l) ^ 2).sum) / ((l.length : ℝ) - 1)

/-- `bb_std` of src/main.py line 49: the square root of the ddof=1
rolling variance. -/
noncomputable def bbStd (l : List ℝ) : ℝ := Real.sqrt (sampleVar l)

/-- `bb_up = bb_ma + bb_std * 2` (src/main.py line 50). -/
noncomputable def bbUp (l : List ℝ) : ℝ := winMean l + bbStd l * 2

/-- `bb_low = bb_ma - bb_std * 2` (src/main.py line 51). -/
noncomputable def bbLow (l : List ℝ) : ℝ := winMean l - bbStd l * 2

/-- `np.where(bb_range == 0, 0, (Close - bb_low) / bb_range)`
(src/main.py lines 53-54). -/
noncomputable def bbPctB (close : ℝ) (l : List ℝ) : ℝ :=
  if bbUp l - bbLow l = 0 then 0 else (close - bbLow l) / (bbUp l - bbLow l)

/-- Modelled from the claim's words, for comparison with the code: the
population variance of the trailing window, divisor N rather than
N − 1. -/
noncomputable def popVar (l : List ℝ) : ℝ :=
  ((l.map fun x => (x - winMean l) ^ 2).sum) / (l.length : ℝ)

/-- Modelled from the claim's words: the population standard deviation
of the trailing window. -/
noncomputable def popStd (l : List ℝ) : ℝ := Real.sqrt (popVar l)

/-- A full 20-close window: nineteen closes of 1 followed by one close
of 2.  Its sample variance is 1/20 while its population variance is
19/400, so the two standard deviations differ. -/
noncomputable def exCloses : List ℝ := List.replicate 19 1 ++ [2]

/-- C7: for all inputs, the classification is OVERHEATED iff rsi ≥ 70 or
%B > 1.0; otherwise OVERSOLD iff rsi ≤ 30 or %B < 0; otherwise NORMAL;
OVERHEATED takes precedence when both conditions hold, e.g.
classify(70, −5) = OVERHEATED; the function is total (it is a Lean
function) and side-effect-free. -/
theorem classify_characterization (rsi bb : ℚ) :
    (classify rsi bb = .overheated ↔ (rsi ≥ 70 ∨ bb > 1)) ∧
    (classify rsi bb = .oversold ↔ (¬(rsi ≥ 70 ∨ bb > 1) ∧ (rsi ≤ 30 ∨ bb < 0))) ∧
    (classify rsi bb = .normal ↔ (¬(rsi ≥ 70 ∨ bb > 1) ∧ ¬(rsi ≤ 30 ∨ bb < 0))) ∧
    classify 70 (-5) = .overheated := by
  refine ⟨?_, ?_, ?_, by unfold classify; norm_num⟩ <;>
  · unfold classify
    by_cases h1 : rsi ≥ 70 ∨ bb > 1 <;> by_cases h2 : rsi ≤ 30 ∨ bb < 0 <;>
      simp [h1, h2]

/-- Concrete instance of C7: the precedence example from the spec. -/
theorem classify_characterization_witness :
    classify 70 (-5) = .overheated ∧ classify 30 (-1/10) = .oversold := by
  refine ⟨(classify_characterization 70 (-5)).2.2.2, ?_⟩
  exact (classify_characterization 30 (-1/10)).2.1.mpr (by norm_num)

/-- C2: at any bar where the trailing-14 average loss is 0 and the
average gain is strictly positive, the emitted RSI (after 1-decimal
rounding) is exactly 100: `gain/0` is `+inf` and the formula collapses
to 100, so the row is defined rather than dropped. -/
theorem rsi_avg_loss_zero_emits_100 (ds : List ℚ)
    (h0 : avgLoss ds = 0) (h1 : 0 < avgGain ds) :
    (rsiOfAvg (avgGain ds) (avgLoss ds)).map round1 = some 100 := by
  rw [h0]
  unfold rsiOfAvg
  rw [if_pos rfl, if_neg (ne_of_gt h1)]
  have h100 : round1 100 = 100 := by
    unfold round1 rnd
    norm_num
  simp [h100]

/-- Concrete instance of C2: a strictly rising 14-delta window. -/
theorem rsi_avg_loss_zero_emits_100_witness :
    avgLoss exDeltas = 0 ∧ 0 < avgGain exDeltas ∧
    (rsiOfAvg (avgGain exDeltas) (avgLoss exDeltas)).map round1 = some 100 :=
  ⟨by norm_num [avgLoss, exDeltas, List.sum_replicate],
   by norm_num [avgGain, exDeltas, List.sum_replicate],
   rsi_avg_loss_zero_emits_100 exDeltas
     (by norm_num [avgLoss, exDeltas, List.sum_replicate])
     (by norm_num [avgGain, exDeltas, List.sum_replicate])⟩

/-- Raw RSI in [69.95, 70) rounds, at 1 decimal, up to 70. -/
lemma round1_high_band (x : ℚ) (h1 : 6995/100 ≤ x) (h2 : x < 70) :
    round1 x = 70 := by
  have hfl : ⌊x * 10⌋ = 699 := by
    rw [Int.floor_eq_iff]
    constructor
    · push_cast; linarith
    · push_cast; linarith
  have hrnd : rnd (x * 10) = 700 := by
    unfold rnd
    rw [hfl]
    split_ifs with a b c
    · exfalso; push_cast at a; linarith
    · norm_num
    · exfalso; norm_num at c
    · norm_num
  unfold round1
  rw [hrnd]
  norm_num

/-- C10: the emitted row stores RSI rounded to 1 decimal and %B rounded
to 2 decimals (`make_row`), and both the panel status and the
overheated-ranking condition read those stored values; hence every row
whose raw RSI lies in [69.95, 70) carries the stored value 70 and is
classified OVERHEATED whatever its %B. -/
theorem classification_from_rounded (c s : String) (d : ℕ) (cl bb rawRsi : ℚ)
    (h1 : 6995/100 ≤ rawRsi) (h2 : rawRsi < 70) :
    (makeRow c s d cl rawRsi bb).rsi = 70 ∧
    classify (makeRow c s d cl rawRsi bb).rsi (makeRow c s d cl rawRsi bb).bb
      = .overheated := by
  have hr : (makeRow c s d cl rawRsi bb).rsi = 70 := round1_high_band rawRsi h1 h2
  refine ⟨hr, ?_⟩
  rw [hr]
  unfold classify
  rw [if_pos (Or.inl (by norm_num))]

/-- Concrete instance of C10: raw RSI 69.99 with %B well inside the
band is still classified OVERHEATED. -/
theorem classification_from_rounded_witness :
    (6995/100 : ℚ) ≤ 6999/100 ∧ (6999/100 : ℚ) < 70 ∧
    ((makeRow "XLK" "Tech" 0 100 (6999/100) (1/2)).rsi = 70 ∧
     classify ((makeRow "XLK" "Tech" 0 100 (6999/100) (1/2)).rsi)
       ((makeRow "XLK" "Tech" 0 100 (6999/100) (1/2)).bb) = .overheated) :=
  ⟨by norm_num, by norm_num,
   classification_from_rounded "XLK" "Tech" 0 100 (1/2) (6999/100)
     (by norm_num) (by norm_num)⟩

instance : IsTotal Row keyLe := ⟨fun a b => by
  unfold keyLe
  rcases lt_trichotomy a.date b.date with h | h | h
  · exact Or.inl (Or.inl h)
  · rcases le_total a.code b.code with hc | hc
    · exact Or.inl (Or.inr ⟨h, hc⟩)
    · exact Or.inr (Or.inr ⟨h.symm, hc⟩)
  · exact Or.inr (Or.inl h)⟩

instance : IsTrans Row keyLe := ⟨fun a b c hab hbc => by
  unfold keyLe at *
  rcases hab with h1 | ⟨e1, c1⟩ <;> rcases hbc with h2 | ⟨e2, c2⟩
  · exact Or.inl (h1.trans h2)
  · exact Or.inl (e2 ▸ h1)
  · exact Or.inl (e1 ▸ h2)
  · exact Or.inr ⟨e1.trans e2, c1.trans c2⟩⟩

lemma dedupKeepLast_sublist (l : List Row) : (dedupKeepLast l).Sublist l := by
  induction l with
  | nil => simp [dedupKeepLast]
  | cons r rs ih =>
    unfold dedupKeepLast
    split
    · exact ih.trans (List.sublist_cons_self r rs)
    · exact ih.cons₂ r

lemma dedupKeepLast_pairwise (l : List Row) :
    (dedupKeepLast l).Pairwise (fun a b => ¬ sameKey b a) := by
  induction l with
  | nil => simp [dedupKeepLast]
  | cons r rs ih =>
    unfold dedupKeepLast
    split
    · exact ih
    · next h =>
      push_neg at h
      exact List.pairwise_cons.mpr
        ⟨fun b hb => h b ((dedupKeepLast_sublist rs).subset hb), ih⟩

lemma dedupKeepLast_eq_self {l : List Row}
    (h : l.Pairwise fun a b => ¬ sameKey b a) : dedupKeepLast l = l := by
  induction l with
  | nil => rfl
  | cons r rs ih =>
    rw [List.pairwise_cons] at h
    unfold dedupKeepLast
    rw [if_neg, ih h.2]
    rintro ⟨s, hs, hk⟩
    exact h.1 s hs hk

/-- C8: the Aggregator merge step — sort by (date, code), deduplicate by
(date, code) keeping the last occurrence — is idempotent: applied to its
own output it returns that output unchanged, for every input row
collection. -/
theorem merge_step_idempotent (rows : List Row) :
    mergeStep (mergeStep rows) = mergeStep rows := by
  have hsorted : (mergeStep rows).Sorted keyLe :=
    List.Pairwise.sublist (dedupKeepLast_sublist (List.insertionSort keyLe rows))
      (List.sorted_insertionSort keyLe rows)
  show dedupKeepLast (List.insertionSort keyLe (mergeStep rows)) = mergeStep rows
  rw [List.Sorted.insertionSort_eq hsorted]
  exact dedupKeepLast_eq_self (dedupKeepLast_pairwise _)

/-- Concrete instance of C8: a collection with a duplicated (date, code)
key and out-of-order dates. -/
theorem merge_step_idempotent_witness :
    mergeStep (mergeStep [⟨"XLF", "Fin", 3, 40, 50, 1/2⟩,
        ⟨"XLC", "Comm", 1, 10, 60, 1/4⟩, ⟨"XLC", "Comm", 1, 11, 61, 1/4⟩]) =
      mergeStep [⟨"XLF", "Fin", 3, 40, 50, 1/2⟩,
        ⟨"XLC", "Comm", 1, 10, 60, 1/4⟩, ⟨"XLC", "Comm", 1, 11, 61, 1/4⟩] :=
  merge_step_idempotent _

/-- C3 counterexample: in `exDf`, sector `Disc` has no close at the
earliest date of the merged index, yet the normalized table still has a
`Disc` column — `pivot_df.div(base_prices)` keeps every pivot column and
fills this one with NaN, rather than skipping it. -/
theorem missing_basis_column_kept :
    pivotCell exDf (earliestDate exDf) "Disc" = none ∧
    "Disc" ∈ pivotColumns exDf := by
  constructor
  · rfl
  · decide

/-- C3 amended: an instrument with no close at the earliest date of the
merged index still gets a column in the normalized output, but every
value of that column is NaN (the division by the NaN basis maps the
whole column to NaN; the column is not skipped). -/
theorem missing_basis_column_all_nan (df : List Row) (n : String)
    (hmem : n ∈ df.map Row.sector)
    (hbase : pivotCell df (earliestDate df) n = none) :
    n ∈ pivotColumns df ∧ ∀ d, normalizedCell df d n = none := by
  refine ⟨List.mem_dedup.mpr hmem, fun d => ?_⟩
  unfold normalizedCell
  rw [hbase]

/-- Concrete instance of the amended C3 on `exDf`. -/
theorem missing_basis_column_all_nan_witness :
    "Disc" ∈ exDf.map Row.sector ∧
    pivotCell exDf (earliestDate exDf) "Disc" = none ∧
    "Disc" ∈ pivotColumns exDf ∧ normalizedCell exDf 1 "Disc" = none :=
  ⟨by decide, rfl,
   (missing_basis_column_all_nan exDf "Disc" (by decide) rfl).1,
   (missing_basis_column_all_nan exDf "Disc" (by decide) rfl).2 1⟩

/-- C4: an instrument whose close at the earliest date of the merged
index is present (and nonzero, as the Bar invariant close > 0
guarantees) has normalized value exactly 100 at that date: its column is
divided by that very value and 100.00 rounds to itself. -/
theorem basis_row_is_100 (df : List Row) (n : String) (b : ℚ)
    (hb : pivotCell df (earliestDate df) n = some b) (hb0 : b ≠ 0) :
    normalizedCell df (earliestDate df) n = some 100 := by
  unfold normalizedCell
  rw [hb]
  show some (round2 (b / b * 100)) = some 100
  rw [div_self hb0, one_mul]
  unfold round2 rnd
  norm_num

/-- Concrete instance of C4 on `exDf`: sector `Comm` has close 10 at the
earliest date and normalizes to 100 there. -/
theorem basis_row_is_100_witness :
    pivotCell exDf (earliestDate exDf) "Comm" = some 10 ∧ (10 : ℚ) ≠ 0 ∧
    normalizedCell exDf (earliestDate exDf) "Comm" = some 100 :=
  ⟨rfl, by norm_num, basis_row_is_100 exDf "Comm" 10 rfl (by norm_num)⟩

instance : IsTotal OEntry rankDesc := ⟨fun a b => le_total b.rsi a.rsi⟩

instance : IsTrans OEntry rankDesc := ⟨fun _ _ _ hab hbc => le_trans hbc hab⟩

/-- C6: the overheated shortlist is the overheated-classified snapshot
rows sorted by RSI descending — stable, so ties keep snapshot order —
truncated to at most 3; in particular snapshot rows A, B, C with RSI
95, 80, 95 rank as [A, C, B]. -/
theorem overheated_top3_ranking (snapshot : List Row)
    (lastIndex : String → Option ℚ) :
    (overheatedTop3 snapshot lastIndex).Sorted rankDesc ∧
    (overheatedTop3 snapshot lastIndex).length ≤ 3 ∧
    (∀ e ∈ overheatedTop3 snapshot lastIndex,
      e ∈ overheatedEntries snapshot lastIndex) ∧
    (overheatedTop3 [rowA, rowB, rowC] fun _ => none).map OEntry.sector
      = ["A", "C", "B"] := by
  refine ⟨?_, ?_, ?_, ?_⟩
  · exact List.Pairwise.sublist (List.take_sublist 3 _)
      (List.sorted_insertionSort rankDesc _)
  · exact List.length_take_le 3 _
  · intro e he
    exact (List.perm_insertionSort rankDesc _).subset
      ((List.take_sublist 3 _).subset he)
  · norm_num [overheatedTop3, overheatedEntries, isOverheatedRow,
      rowA, rowB, rowC, rankDesc, List.insertionSort, List.orderedInsert]

/-- Concrete instance of C6: the spec's three-instrument scenario. -/
theorem overheated_top3_ranking_witness :
    (overheatedTop3 [rowA, rowB, rowC] fun _ => none).map OEntry.sector
      = ["A", "C", "B"] :=
  (overheated_top3_ranking [] fun _ => none).2.2.2

/-- C9: with an empty flattened row collection the pipeline halts
cleanly: `process_data_for_chart` yields no panel/chart, and `main`
returns before rendering or publishing — and the run never halts early
on a non-empty collection. -/
theorem empty_input_clean_halt :
    processDataForChart [] = none ∧
    ∀ allRows, mainAfterFetch allRows = none ↔ allRows = [] := by
  refine ⟨rfl, fun allRows => ?_⟩
  unfold mainAfterFetch processDataForChart
  by_cases h : allRows = [] <;> simp [h]

/-- Concrete instance of C9: the empty collection halts the run. -/
theorem empty_input_clean_halt_witness : mainAfterFetch [] = none :=
  (empty_input_clean_halt.2 []).mpr rfl

lemma winMean_exCloses : winMean exCloses = 21/20 := by
  norm_num [winMean, exCloses, List.sum_append, List.sum_replicate]

lemma sampleVar_exCloses : sampleVar exCloses = 1/20 := by
  unfold sampleVar
  rw [winMean_exCloses]
  norm_num [exCloses, List.map_append, List.map_replicate,
    List.sum_append, List.sum_replicate]

lemma popVar_exCloses : popVar exCloses = 19/400 := by
  unfold popVar
  rw [winMean_exCloses]
  norm_num [exCloses, List.map_append, List.map_replicate,
    List.sum_append, List.sum_replicate]

lemma exCloses_range_ne : bbUp exCloses - bbLow exCloses ≠ 0 := by
  have hs : bbStd exCloses = Real.sqrt (1/20) := by
    unfold bbStd; rw [sampleVar_exCloses]
  have hs0 : (0:ℝ) < Real.sqrt (1/20) := Real.sqrt_pos.mpr (by norm_num)
  have : bbUp exCloses - bbLow exCloses = 4 * Real.sqrt (1/20) := by
    unfold bbUp bbLow; rw [hs]; ring
  rw [this]
  positivity

/-- C1 counterexample: on the full 20-close window (1, …, 1, 2) the
band range is nonzero and the population standard deviation is nonzero,
yet the %B the code computes (from the pandas ddof=1 sample std)
differs from the claimed expression built from the population std. -/
theorem bollinger_population_std_refuted :
    popStd exCloses ≠ 0 ∧ bbUp exCloses - bbLow exCloses ≠ 0 ∧
    bbPctB 2 exCloses ≠
      (2 - (winMean exCloses - 2 * popStd exCloses)) /
        (4 * popStd exCloses) := by
  have hs : bbStd exCloses = Real.sqrt (1/20) := by
    unfold bbStd; rw [sampleVar_exCloses]
  have hp : popStd exCloses = Real.sqrt (19/400) := by
    unfold popStd; rw [popVar_exCloses]
  have hs0 : (0:ℝ) < Real.sqrt (1/20) := Real.sqrt_pos.mpr (by norm_num)
  have ht0 : (0:ℝ) < Real.sqrt (19/400) := Real.sqrt_pos.mpr (by norm_num)
  have hs2 : Real.sqrt (1/20) ^ 2 = 1/20 := Real.sq_sqrt (by norm_num)
  have ht2 : Real.sqrt (19/400) ^ 2 = 19/400 := Real.sq_sqrt (by norm_num)
  refine ⟨by rw [hp]; exact ne_of_gt ht0, exCloses_range_ne, ?_⟩
  have hcode : bbPctB 2 exCloses =
      (19/20 + 2 * Real.sqrt (1/20)) / (4 * Real.sqrt (1/20)) := by
    unfold bbPctB
    rw [if_neg exCloses_range_ne]
    unfold bbUp bbLow
    rw [hs, winMean_exCloses]
    congr 1 <;> ring
  have hclaim : (2 - (winMean exCloses - 2 * popStd exCloses)) /
      (4 * popStd exCloses) =
      (19/20 + 2 * Real.sqrt (19/400)) / (4 * Real.sqrt (19/400)) := by
    rw [hp, winMean_exCloses]
    congr 1
    ring
  rw [hcode, hclaim]
  intro heq
  rw [div_eq_div_iff (by positivity) (by positivity)] at heq
  have hst : Real.sqrt (19/400) = Real.sqrt (1/20) := by
    linear_combination (5/19) * heq
  have : (1/20 : ℝ) = 19/400 := by rw [← hs2, ← hst, ht2]
  norm_num at this

/-- C1 amended: the rolling standard deviation the code uses is the
SAMPLE standard deviation of the trailing 20 closes (divisor N − 1, the
pandas `.std()` default), not the population one; whenever the band
range is nonzero, %B at a full window equals
(close − (ma20 − 2·std_samp)) / (4·std_samp). -/
theorem bollinger_sample_std_formula (close : ℝ) (l : List ℝ)
    (_hl : l.length = 20) (h : bbUp l - bbLow l ≠ 0) :
    bbPctB close l = (close - (winMean l - 2 * bbStd l)) / (4 * bbStd l) := by
  unfold bbPctB
  rw [if_neg h]
  unfold bbUp bbLow
  rw [show winMean l + bbStd l * 2 - (winMean l - bbStd l * 2)
        = 4 * bbStd l from by ring,
      show close - (winMean l - bbStd l * 2)
        = close - (winMean l - 2 * bbStd l) from by ring]

/-- Concrete instance of the amended C1 on the window (1, …, 1, 2). -/
theorem bollinger_sample_std_formula_witness :
    exCloses.length = 20 ∧ bbUp exCloses - bbLow exCloses ≠ 0 ∧
    bbPctB 2 exCloses =
      (2 - (winMean exCloses - 2 * bbStd exCloses)) / (4 * bbStd exCloses) :=
  ⟨by simp [exCloses], exCloses_range_ne,
   bollinger_sample_std_formula 2 exCloses (by simp [exCloses])
     exCloses_range_ne⟩

end SectorAnalysis
